import Mathlib

/-!
Shallow embedding of the RakNet packet-protocol layer (packet.py, protocol.py,
utils.py) and proofs about its serialization, acknowledgment compression and
class-attribute behaviour.

Byte buffers are modelled as `List Nat` with every entry below 256.  The
binary field codec (the external `binary.BinaryStream` dependency) is modelled
per its documented contract: fixed-width big-endian integers by default,
little-endian where a call overrides the order, and a `BufferUnderrun` failure
whenever a read would pass the end of the buffer.  Reads consume a prefix of
the buffer and return the value together with the remaining bytes, which is
the functional counterpart of the stream's moving offset.
-/

deriving instance DecidableEq for Except

/-- Error conditions raised while parsing or constructing packets.
`bufferUnderrun` models a read past the end of the buffer;
`unexpectedPacketId` models the `ValueError` raised by `Packet.decode_header`
on a header-byte mismatch; `unknownAddressVersion` models the `ValueError`
raised by `read_address`; `indexOutOfRange` models Python's `IndexError` from
a list index assignment; `attributeError` models Python's `AttributeError`
from reading a never-assigned attribute. -/
inductive PyErr where
  | bufferUnderrun
  | unexpectedPacketId
  | unknownAddressVersion
  | indexOutOfRange
  | attributeError
deriving DecidableEq, Repr

/-- A byte buffer: a list of values in `[0, 256)`. -/
abbrev Bytes := List Nat

theorem exbind_ok (a : α) (f : α → Except ε β) : (Except.ok a >>= f) = f a := rfl

theorem exbind_err (e : ε) (f : α → Except ε β) :
    ((Except.error e : Except ε α) >>= f) = Except.error e := rfl

/-- Read exactly `n` bytes from the front of the buffer
(`BinaryStream.read(n)`), failing with `BufferUnderrun` when fewer remain. -/
def readBytes (n : Nat) (buf : Bytes) : Except PyErr (Bytes × Bytes) :=
  if n ≤ buf.length then Except.ok (buf.take n, buf.drop n)
  else Except.error PyErr.bufferUnderrun

/-- Read one byte (`read_byte`). -/
def readByte (buf : Bytes) : Except PyErr (Nat × Bytes) :=
  match buf with
  | [] => Except.error PyErr.bufferUnderrun
  | b :: r => Except.ok (b, r)

/-- Big-endian value of a byte list. -/
def fromBE (l : Bytes) : Nat := l.foldl (fun a b => a * 256 + b) 0

/-- Little-endian value of a byte list. -/
def fromLE (l : Bytes) : Nat := l.foldr (fun b a => a * 256 + b) 0

/-- Big-endian bytes of `v`, `n` bytes wide (`write_short`, `write_int`,
`write_long` with the codec's default byte order). -/
def toBE : Nat → Nat → Bytes
  | 0, _ => []
  | n + 1, v => toBE n (v / 256) ++ [v % 256]

/-- Little-endian bytes of `v`, `n` bytes wide (the explicit
`ByteOrder.LITTLE_ENDIAN` override used for triads and the IPv6 family tag). -/
def toLE : Nat → Nat → Bytes
  | 0, _ => []
  | n + 1, v => v % 256 :: toLE n (v / 256)

/-- Read a 2-byte big-endian integer (`read_short`). -/
def readShort (buf : Bytes) : Except PyErr (Nat × Bytes) := do
  let (bs, r) ← readBytes 2 buf
  Except.ok (fromBE bs, r)

/-- Read a 2-byte little-endian integer (`read_short(order=LITTLE_ENDIAN)`). -/
def readShortLE (buf : Bytes) : Except PyErr (Nat × Bytes) := do
  let (bs, r) ← readBytes 2 buf
  Except.ok (fromLE bs, r)

/-- Read a 3-byte little-endian integer (`read_triad(order=LITTLE_ENDIAN)`). -/
def readTriadLE (buf : Bytes) : Except PyErr (Nat × Bytes) := do
  let (bs, r) ← readBytes 3 buf
  Except.ok (fromLE bs, r)

/-- Read a 4-byte big-endian integer (`read_int`). -/
def readInt (buf : Bytes) : Except PyErr (Nat × Bytes) := do
  let (bs, r) ← readBytes 4 buf
  Except.ok (fromBE bs, r)

/-- Read an 8-byte big-endian integer (`read_long`). -/
def readLong (buf : Bytes) : Except PyErr (Nat × Bytes) := do
  let (bs, r) ← readBytes 8 buf
  Except.ok (fromBE bs, r)

/-- Read one byte as a boolean (`read_bool`). -/
def readBool (buf : Bytes) : Except PyErr (Bool × Bytes) := do
  let (b, r) ← readByte buf
  Except.ok (b ≠ 0, r)

/-- Write one byte (`write_byte`). -/
def writeByte (v : Nat) : Bytes := [v % 256]

/-- Write a 2-byte big-endian integer (`write_short`). -/
def writeShort (v : Nat) : Bytes := toBE 2 v

/-- Write a 2-byte little-endian integer (`write_short(order=LITTLE_ENDIAN)`). -/
def writeShortLE (v : Nat) : Bytes := toLE 2 v

/-- Write a 3-byte little-endian integer (`write_triad(order=LITTLE_ENDIAN)`). -/
def writeTriadLE (v : Nat) : Bytes := toLE 3 v

/-- Write a 4-byte big-endian integer (`write_int`). -/
def writeInt (v : Nat) : Bytes := toBE 4 v

/-- Write an 8-byte big-endian integer (`write_long`). -/
def writeLong (v : Nat) : Bytes := toBE 8 v

/-- Write a boolean as one byte (`write_bool`). -/
def writeBool (b : Bool) : Bytes := [if b then 1 else 0]

theorem toBE_length (n v : Nat) : (toBE n v).length = n := by
  induction n generalizing v with
  | zero => rfl
  | succ n ih => simp [toBE, ih]

theorem toLE_length (n v : Nat) : (toLE n v).length = n := by
  induction n generalizing v with
  | zero => rfl
  | succ n ih => simp [toLE, ih]

theorem fromBE_toBE (n v : Nat) (h : v < 256 ^ n) : fromBE (toBE n v) = v := by
  induction n generalizing v with
  | zero =>
    simp [toBE, fromBE]
    omega
  | succ n ih =>
    have h2 : v / 256 < 256 ^ n := by
      rw [Nat.div_lt_iff_lt_mul (by norm_num)]
      calc v < 256 ^ (n + 1) := h
        _ = 256 ^ n * 256 := by ring
    simp only [toBE, fromBE, List.foldl_append, List.foldl_cons, List.foldl_nil]
    have := ih (v / 256) h2
    simp only [fromBE] at this
    rw [this]
    omega

theorem fromLE_toLE (n v : Nat) (h : v < 256 ^ n) : fromLE (toLE n v) = v := by
  induction n generalizing v with
  | zero =>
    simp [toLE, fromLE]
    omega
  | succ n ih =>
    have h2 : v / 256 < 256 ^ n := by
      rw [Nat.div_lt_iff_lt_mul (by norm_num)]
      calc v < 256 ^ (n + 1) := h
        _ = 256 ^ n * 256 := by ring
    simp only [toLE, fromLE, List.foldr_cons]
    have := ih (v / 256) h2
    simp only [fromLE] at this
    rw [this]
    omega

theorem readBytes_exact (l r : Bytes) (n : Nat) (h : l.length = n) :
    readBytes n (l ++ r) = Except.ok (l, r) := by
  subst h
  simp [readBytes, List.take_append, List.drop_append]

theorem readByte_cons (b : Nat) (r : Bytes) : readByte (b :: r) = Except.ok (b, r) := rfl

theorem readShort_write (v : Nat) (r : Bytes) (h : v < 65536) :
    readShort (writeShort v ++ r) = Except.ok (v, r) := by
  simp only [readShort, writeShort]
  rw [readBytes_exact _ _ _ (toBE_length 2 v), exbind_ok]
  rw [fromBE_toBE 2 v (by norm_num; omega)]

theorem readLong_write (v : Nat) (r : Bytes) (h : v < 2 ^ 64) :
    readLong (writeLong v ++ r) = Except.ok (v, r) := by
  simp only [readLong, writeLong]
  rw [readBytes_exact _ _ _ (toBE_length 8 v), exbind_ok]
  rw [fromBE_toBE 8 v (by norm_num; omega)]

theorem readInt_write (v : Nat) (r : Bytes) (h : v < 2 ^ 32) :
    readInt (writeInt v ++ r) = Except.ok (v, r) := by
  simp only [readInt, writeInt]
  rw [readBytes_exact _ _ _ (toBE_length 4 v), exbind_ok]
  rw [fromBE_toBE 4 v (by norm_num; omega)]

theorem readTriadLE_write (v : Nat) (r : Bytes) (h : v < 2 ^ 24) :
    readTriadLE (writeTriadLE v ++ r) = Except.ok (v, r) := by
  simp only [readTriadLE, writeTriadLE]
  rw [readBytes_exact _ _ _ (toLE_length 3 v), exbind_ok]
  rw [fromLE_toLE 3 v (by norm_num; omega)]

theorem readBool_write (b : Bool) (r : Bytes) :
    readBool (writeBool b ++ r) = Except.ok (b, r) := by
  cases b <;> simp [readBool, writeBool, readByte, exbind_ok]

theorem readByte_write (v : Nat) (r : Bytes) (h : v < 256) :
    readByte (writeByte v ++ r) = Except.ok (v, r) := by
  simp [writeByte, readByte, Nat.mod_eq_of_lt h]

/-- Read a 2-byte-length-prefixed ASCII string (`read_string`), modelled as
its list of character codes. -/
def readString (buf : Bytes) : Except PyErr (Bytes × Bytes) := do
  let (n, r1) ← readShort buf
  readBytes n r1

/-- Write a 2-byte-length-prefixed ASCII string (`write_string`). -/
def writeString (s : Bytes) : Bytes := writeShort s.length ++ s

theorem readString_write (s : Bytes) (r : Bytes) (h : s.length < 65536) :
    readString (writeString s ++ r) = Except.ok (s, r) := by
  simp only [readString, writeString, List.append_assoc]
  rw [readShort_write _ _ h, exbind_ok]
  exact readBytes_exact s r s.length rfl

/-- A network endpoint (`InternetAddress` in utils.py): equality is structural
over ip, port and version.  The textual `ip` field is modelled by its numeric
content, with which it is in bijection for valid addresses: for version 4 the
four decimal octets of the canonical dotted-quad text, for version 6 the 16
raw address bytes (`inet_pton`/`inet_ntop` of the canonical text). -/
structure InternetAddress where
  ip : List Nat
  port : Nat
  version : Nat
deriving DecidableEq, Repr

/-- Python's `~x & 0xff`, the per-octet obfuscation applied to IPv4 bytes. -/
def byteInvert (x : Nat) : Nat := 255 - x % 256

/-- Address-family tag written for IPv6 addresses (`socket.AF_INET6`,
value 10 on Linux); the decoder discards it. -/
def AF_INET6 : Nat := 10

/-- Serialize an address (`PacketSerializer.write_address`): version byte,
then for version 4 the complemented octets and the port, for version 6 the
little-endian family tag, port, 4 zero bytes, the 16 address bytes and 4 more
zero bytes.  Any other version writes only the version byte, as in the
source, where neither branch of the if/elif runs. -/
def write_address (a : InternetAddress) : Bytes :=
  writeByte a.version ++
    (if a.version = 4 then (a.ip.map fun p => writeByte (byteInvert p)).flatten ++ writeShort a.port
     else if a.version = 6 then
       writeShortLE AF_INET6 ++ writeShort a.port ++ writeInt 0 ++ a.ip ++ writeInt 0
     else [])

/-- Deserialize an address (`PacketSerializer.read_address`): inverse layout,
failing with `UnknownAddressVersion` when the leading byte is neither 4
nor 6. -/
def read_address (buf : Bytes) : Except PyErr (InternetAddress × Bytes) := do
  let (ver, r0) ← readByte buf
  if ver = 4 then do
    let (bs, r1) ← readBytes 4 r0
    let (port, r2) ← readShort r1
    Except.ok (⟨bs.map byteInvert, port, 4⟩, r2)
  else if ver = 6 then do
    let (_, r1) ← readShortLE r0
    let (port, r2) ← readShort r1
    let (_, r3) ← readInt r2
    let (ip, r4) ← readBytes 16 r3
    let (_, r5) ← readInt r4
    Except.ok (⟨ip, port, 6⟩, r5)
  else Except.error PyErr.unknownAddressVersion

/-- Validity of an address: a version-4 address has four octets below 256
(a dotted quad), a version-6 address has sixteen bytes below 256, and in both
cases the port fits in 16 bits. -/
def ValidAddress (a : InternetAddress) : Prop :=
  (a.version = 4 ∧ a.ip.length = 4 ∨ a.version = 6 ∧ a.ip.length = 16) ∧
    (∀ x ∈ a.ip, x < 256) ∧ a.port < 65536

instance (a : InternetAddress) : Decidable (ValidAddress a) := by
  unfold ValidAddress; infer_instance

theorem byteInvert_involutive (x : Nat) (h : x < 256) : byteInvert (byteInvert x) = x := by
  simp [byteInvert, Nat.mod_eq_of_lt h]
  omega

theorem byteInvert_lt (x : Nat) : byteInvert x < 256 := by
  simp [byteInvert]
  omega

theorem flatten_writeByte_invert (l : List Nat) :
    (l.map fun p => writeByte (byteInvert p)).flatten = l.map byteInvert := by
  induction l with
  | nil => rfl
  | cons x xs ih =>
    simp only [List.map_cons, List.flatten_cons, ih]
    simp [writeByte, Nat.mod_eq_of_lt (byteInvert_lt x)]

theorem map_byteInvert_invert (l : List Nat) (h : ∀ x ∈ l, x < 256) :
    (l.map byteInvert).map byteInvert = l := by
  induction l with
  | nil => rfl
  | cons x xs ih =>
    simp only [List.map_cons, List.cons.injEq]
    exact ⟨byteInvert_involutive x (h x (by simp)), ih (fun y hy => h y (by simp [hy]))⟩

theorem readShortLE_write (v : Nat) (r : Bytes) (h : v < 65536) :
    readShortLE (writeShortLE v ++ r) = Except.ok (v, r) := by
  simp only [readShortLE, writeShortLE]
  rw [readBytes_exact _ _ _ (toLE_length 2 v), exbind_ok]
  rw [fromLE_toLE 2 v (by norm_num; omega)]

theorem write_address_v4 (ip : List Nat) (port : Nat) :
    write_address ⟨ip, port, 4⟩ = 4 :: (ip.map byteInvert ++ writeShort port) := by
  simp only [write_address, if_pos rfl]
  rw [flatten_writeByte_invert]
  rfl

theorem write_address_v6 (ip : List Nat) (port : Nat) :
    write_address ⟨ip, port, 6⟩ =
      6 :: (writeShortLE AF_INET6 ++ writeShort port ++ writeInt 0 ++ ip ++ writeInt 0) := by
  simp only [write_address, if_neg (by decide : ¬(6 = 4)), if_pos rfl]
  rfl

theorem read_address_write (a : InternetAddress) (r : Bytes) (h : ValidAddress a) :
    read_address (write_address a ++ r) = Except.ok (a, r) := by
  obtain ⟨ip, port, ver⟩ := a
  obtain ⟨hv, hall, hport⟩ := h
  simp only at hall hport
  rcases hv with ⟨h4, hlen⟩ | ⟨h6, hlen⟩
  · simp only at h4 hlen
    subst h4
    rw [write_address_v4]
    simp only [List.cons_append, List.append_assoc]
    rw [read_address, readByte_cons, exbind_ok]
    simp only [if_pos rfl]
    rw [readBytes_exact (ip.map byteInvert) _ 4 (by simp [hlen]), exbind_ok]
    simp only
    rw [readShort_write port r hport, exbind_ok]
    simp [map_byteInvert_invert ip hall]
  · simp only at h6 hlen
    subst h6
    rw [write_address_v6]
    simp only [List.cons_append, List.append_assoc]
    rw [read_address, readByte_cons, exbind_ok]
    simp only [if_neg (by decide : ¬(6 = 4)), if_pos rfl]
    rw [readShortLE_write AF_INET6 _ (by norm_num [AF_INET6]), exbind_ok]
    simp only
    rw [readShort_write port _ hport, exbind_ok]
    simp only
    rw [readInt_write 0 _ (by norm_num), exbind_ok]
    simp only
    rw [readBytes_exact ip _ 16 hlen, exbind_ok]
    simp only
    rw [readInt_write 0 _ (by norm_num), exbind_ok]
    simp

/-- C8: for every valid IPv4 dotted-quad address with version 4 and every
valid IPv6 16-byte address with version 6, with any port in [0, 65535],
`read_address` applied to the bytes produced by `write_address` returns an
`InternetAddress` structurally equal to the original. -/
theorem address_roundtrip (a : InternetAddress) (h : ValidAddress a) :
    read_address (write_address a) = Except.ok (a, []) := by
  have := read_address_write a [] h
  simpa using this

/-- Witness for C8: the concrete IPv4 address 192.168.1.10:19132 and the
concrete IPv6 loopback address ::1 on port 19133 both round-trip. -/
theorem address_roundtrip_witness :
    (ValidAddress ⟨[192, 168, 1, 10], 19132, 4⟩ ∧
      read_address (write_address ⟨[192, 168, 1, 10], 19132, 4⟩) =
        Except.ok (⟨[192, 168, 1, 10], 19132, 4⟩, [])) ∧
    (ValidAddress ⟨[0, 0, 0, 0, 0, 0, 0, 0, 0, 0, 0, 0, 0, 0, 0, 1], 19133, 6⟩ ∧
      read_address (write_address ⟨[0, 0, 0, 0, 0, 0, 0, 0, 0, 0, 0, 0, 0, 0, 0, 1], 19133, 6⟩) =
        Except.ok (⟨[0, 0, 0, 0, 0, 0, 0, 0, 0, 0, 0, 0, 0, 0, 0, 1], 19133, 6⟩, [])) :=
  ⟨⟨by decide, address_roundtrip ⟨[192, 168, 1, 10], 19132, 4⟩ (by decide)⟩,
   ⟨by decide, address_roundtrip ⟨[0, 0, 0, 0, 0, 0, 0, 0, 0, 0, 0, 0, 0, 0, 0, 1], 19133, 6⟩ (by decide)⟩⟩

/-- Fixed message-identifier values (`MessageIdentifiers` in utils.py). -/
def CONNECTED_PING : Nat := 0x00

/-- Wire value `UNCONNECTED_PING` (0x01). -/
def UNCONNECTED_PING : Nat := 0x01

/-- Wire value `UNCONNECTED_PING_OPEN_CONNECTIONS` (0x02). -/
def UNCONNECTED_PING_OPEN_CONNECTIONS : Nat := 0x02

/-- Wire value `CONNECTED_PONG` (0x03). -/
def CONNECTED_PONG : Nat := 0x03

/-- Wire value `OPEN_CONNECTION_REQUEST_ONE` (0x05). -/
def OPEN_CONNECTION_REQUEST_ONE : Nat := 0x05

/-- Wire value `OPEN_CONNECTION_REPLY_ONE` (0x06). -/
def OPEN_CONNECTION_REPLY_ONE : Nat := 0x06

/-- Wire value `OPEN_CONNECTION_REQUEST_TWO` (0x07). -/
def OPEN_CONNECTION_REQUEST_TWO : Nat := 0x07

/-- Wire value `OPEN_CONNECTION_REPLY_TWO` (0x08). -/
def OPEN_CONNECTION_REPLY_TWO : Nat := 0x08

/-- Wire value `CONNECTION_REQUEST` (0x09). -/
def CONNECTION_REQUEST : Nat := 0x09

/-- Wire value `CONNECTION_REQUEST_ACCEPTED` (0x10). -/
def CONNECTION_REQUEST_ACCEPTED : Nat := 0x10

/-- Wire value `NEW_INCOMING_CONNECTION` (0x13). -/
def NEW_INCOMING_CONNECTION : Nat := 0x13

/-- Wire value `DISCONNECT_NOTIFICATION` (0x15). -/
def DISCONNECT_NOTIFICATION : Nat := 0x15

/-- Wire value `INCOMPATIBLE_PROTOCOL_VERSION` (0x19). -/
def INCOMPATIBLE_PROTOCOL_VERSION : Nat := 0x19

/-- Wire value `UNCONNECTED_PONG` (0x1c). -/
def UNCONNECTED_PONG : Nat := 0x1c

/-- Wire value `ADVERTISE_SYSTEM` (0x1d). -/
def ADVERTISE_SYSTEM : Nat := 0x1d

/-- Constant `RakNet.DEFAULT_PROTOCOL_VERSION` (raknet.py). -/
def DEFAULT_PROTOCOL_VERSION : Nat := 6

/-- Constant `RakNet.SYSTEM_ADDRESS_COUNT` (raknet.py). -/
def SYSTEM_ADDRESS_COUNT : Nat := 20

/-- The 16-byte offline-message magic constant (`OfflinePacket.magic`). -/
def MAGIC : Bytes :=
  [0x00, 0xff, 0xff, 0x00, 0xfe, 0xfe, 0xfe, 0xfe, 0xfd, 0xfd, 0xfd, 0xfd, 0x12, 0x34, 0x56, 0x78]

/-- Generic header encode (`Packet.encode_header`): one ID byte. -/
def encode_header (pid : Nat) : Bytes := writeByte pid

/-- Generic packet encode (`Packet.encode`): header byte then payload bytes. -/
def encodePacket (pid : Nat) (payload : Bytes) : Bytes := encode_header pid ++ payload

/-- Generic header decode (`Packet.decode_header`): read one byte; when it
differs from the expected ID the source raises
`ValueError(f'Invalid packet ID: {__in.read_byte()}')`, whose message
formatting consumes a second byte from the stream before the error is
raised. -/
def decode_header (pid : Nat) (buf : Bytes) : Except PyErr Bytes := do
  let (b, r) ← readByte buf
  if b ≠ pid then do
    let (_, _) ← readByte r
    Except.error PyErr.unexpectedPacketId
  else Except.ok r

/-- Generic packet decode (`Packet.decode`): decode the header, then run the
packet type's payload decoder on the remaining bytes.  The decoder returns
the decoded fields functionally, so an error result produces no packet, the
functional counterpart of the target packet's fields being left unchanged. -/
def decodePacket {σ : Type} (pid : Nat) (decPayload : Bytes → Except PyErr (σ × Bytes))
    (buf : Bytes) : Except PyErr (σ × Bytes) := do
  let r ← decode_header pid buf
  decPayload r

/-- C7 (amended): for every packet type (any expected ID and any payload
decoder) and every buffer whose first byte differs from the expected ID,
the generic decode fails without running the payload decoder: with
`UnexpectedPacketId` when at least one byte follows the mismatched one, and
with `BufferUnderrun` when the mismatched byte is the last, because the error
message's formatting reads a second byte.  The result is the same for every
payload decoder and target, so no field of the target packet is touched. -/
theorem decode_wrong_id {σ : Type} (pid : Nat) (dec : Bytes → Except PyErr (σ × Bytes))
    (b : Nat) (rest : Bytes) (h : b ≠ pid) :
    decodePacket pid dec (b :: rest) =
      Except.error (if rest = [] then PyErr.bufferUnderrun else PyErr.unexpectedPacketId) := by
  cases rest with
  | nil => simp [decodePacket, decode_header, readByte, exbind_ok, exbind_err, h]
  | cons x xs => simp [decodePacket, decode_header, readByte, exbind_ok, exbind_err, h]

/-- Witness for C7 (amended): a buffer starting with byte 1 decoded as a
packet with expected ID 0 fails with `UnexpectedPacketId` when a byte
follows. -/
theorem decode_wrong_id_witness :
    (1 ≠ 0) ∧
      decodePacket 0 (fun b => Except.ok (0, b)) [1, 2] = Except.error PyErr.unexpectedPacketId :=
  ⟨by decide, decode_wrong_id 0 (fun b => Except.ok (0, b)) 1 [2] (by decide)⟩

/-- Frame round-trip: decoding a buffer that `encodePacket` produced with the
same expected ID hands the payload bytes to the payload decoder. -/
theorem decodePacket_encodePacket {σ : Type} (pid : Nat) (dec : Bytes → Except PyErr (σ × Bytes))
    (payload : Bytes) (hp : pid < 256) :
    decodePacket pid dec (encodePacket pid payload) = dec payload := by
  simp [decodePacket, encodePacket, encode_header, decode_header,
    readByte_write pid payload hp, exbind_ok]

/-- Fields of `AdvertiseSystem`: a length-prefixed ASCII response string,
modelled as its character codes. -/
structure AdvertiseSystem where
  response : Bytes
deriving DecidableEq, Repr

/-- `AdvertiseSystem.encode_payload`. -/
def advertiseSystemEncodePayload (p : AdvertiseSystem) : Bytes := writeString p.response

/-- `AdvertiseSystem.decode_payload`. -/
def advertiseSystemDecodePayload (buf : Bytes) : Except PyErr (AdvertiseSystem × Bytes) := do
  let (s, r) ← readString buf
  Except.ok (⟨s⟩, r)

/-- Full `AdvertiseSystem` encode, header included. -/
def advertiseSystemEncode (p : AdvertiseSystem) : Bytes :=
  encodePacket ADVERTISE_SYSTEM (advertiseSystemEncodePayload p)

/-- Full `AdvertiseSystem` decode, header included. -/
def advertiseSystemDecode (buf : Bytes) : Except PyErr (AdvertiseSystem × Bytes) :=
  decodePacket ADVERTISE_SYSTEM advertiseSystemDecodePayload buf

/-- Fields of `ConnectedPing`. -/
structure ConnectedPing where
  send_time : Nat
deriving DecidableEq, Repr

/-- `ConnectedPing.encode_payload`. -/
def connectedPingEncodePayload (p : ConnectedPing) : Bytes := writeLong p.send_time

/-- `ConnectedPing.decode_payload`. -/
def connectedPingDecodePayload (buf : Bytes) : Except PyErr (ConnectedPing × Bytes) := do
  let (st, r) ← readLong buf
  Except.ok (⟨st⟩, r)

/-- Full `ConnectedPing` encode, header included. -/
def connectedPingEncode (p : ConnectedPing) : Bytes :=
  encodePacket CONNECTED_PING (connectedPingEncodePayload p)

/-- Full `ConnectedPing` decode, header included. -/
def connectedPingDecode (buf : Bytes) : Except PyErr (ConnectedPing × Bytes) :=
  decodePacket CONNECTED_PING connectedPingDecodePayload buf

/-- Fields of `ConnectedPong`. -/
structure ConnectedPong where
  send_time : Nat
  receive_time : Nat
deriving DecidableEq, Repr

/-- `ConnectedPong.encode_payload`. -/
def connectedPongEncodePayload (p : ConnectedPong) : Bytes :=
  writeLong p.send_time ++ writeLong p.receive_time

/-- `ConnectedPong.decode_payload`. -/
def connectedPongDecodePayload (buf : Bytes) : Except PyErr (ConnectedPong × Bytes) := do
  let (st, r1) ← readLong buf
  let (rt, r2) ← readLong r1
  Except.ok (⟨st, rt⟩, r2)

/-- Full `ConnectedPong` encode, header included. -/
def connectedPongEncode (p : ConnectedPong) : Bytes :=
  encodePacket CONNECTED_PONG (connectedPongEncodePayload p)

/-- Full `ConnectedPong` decode, header included. -/
def connectedPongDecode (buf : Bytes) : Except PyErr (ConnectedPong × Bytes) :=
  decodePacket CONNECTED_PONG connectedPongDecodePayload buf

/-- Fields of `ConnectionRequest`. -/
structure ConnectionRequest where
  client_id : Nat
  send_time : Nat
  use_security : Bool
deriving DecidableEq, Repr

/-- `ConnectionRequest.encode_payload`. -/
def connectionRequestEncodePayload (p : ConnectionRequest) : Bytes :=
  writeLong p.client_id ++ writeLong p.send_time ++ writeBool p.use_security

/-- `ConnectionRequest.decode_payload`. -/
def connectionRequestDecodePayload (buf : Bytes) : Except PyErr (ConnectionRequest × Bytes) := do
  let (cid, r1) ← readLong buf
  let (st, r2) ← readLong r1
  let (us, r3) ← readBool r2
  Except.ok (⟨cid, st, us⟩, r3)

/-- Full `ConnectionRequest` encode, header included. -/
def connectionRequestEncode (p : ConnectionRequest) : Bytes :=
  encodePacket CONNECTION_REQUEST (connectionRequestEncodePayload p)

/-- Full `ConnectionRequest` decode, header included. -/
def connectionRequestDecode (buf : Bytes) : Except PyErr (ConnectionRequest × Bytes) :=
  decodePacket CONNECTION_REQUEST connectionRequestDecodePayload buf

/-- Fields of `DisconnectNotification` (none: empty payload). -/
structure DisconnectNotification where
deriving DecidableEq, Repr

/-- `DisconnectNotification.encode_payload` (writes nothing). -/
def disconnectNotificationEncodePayload (_ : DisconnectNotification) : Bytes := []

/-- `DisconnectNotification.decode_payload` (reads nothing). -/
def disconnectNotificationDecodePayload (buf : Bytes) :
    Except PyErr (DisconnectNotification × Bytes) :=
  Except.ok (⟨⟩, buf)

/-- Full `DisconnectNotification` encode, header included. -/
def disconnectNotificationEncode (p : DisconnectNotification) : Bytes :=
  encodePacket DISCONNECT_NOTIFICATION (disconnectNotificationEncodePayload p)

/-- Full `DisconnectNotification` decode, header included. -/
def disconnectNotificationDecode (buf : Bytes) : Except PyErr (DisconnectNotification × Bytes) :=
  decodePacket DISCONNECT_NOTIFICATION disconnectNotificationDecodePayload buf

/-- Fields of `IncompatibleProtocolVersion`, magic included. -/
structure IncompatibleProtocolVersion where
  magic : Bytes
  protocol : Nat
  server_id : Nat
deriving DecidableEq, Repr

/-- `IncompatibleProtocolVersion.encode_payload`. -/
def incompatibleProtocolVersionEncodePayload (p : IncompatibleProtocolVersion) : Bytes :=
  writeByte p.protocol ++ p.magic ++ writeLong p.server_id

/-- `IncompatibleProtocolVersion.decode_payload`. -/
def incompatibleProtocolVersionDecodePayload (buf : Bytes) :
    Except PyErr (IncompatibleProtocolVersion × Bytes) := do
  let (proto, r1) ← readByte buf
  let (m, r2) ← readBytes 16 r1
  let (sid, r3) ← readLong r2
  Except.ok (⟨m, proto, sid⟩, r3)

/-- Full `IncompatibleProtocolVersion` encode, header included. -/
def incompatibleProtocolVersionEncode (p : IncompatibleProtocolVersion) : Bytes :=
  encodePacket INCOMPATIBLE_PROTOCOL_VERSION (incompatibleProtocolVersionEncodePayload p)

/-- Full `IncompatibleProtocolVersion` decode, header included. -/
def incompatibleProtocolVersionDecode (buf : Bytes) :
    Except PyErr (IncompatibleProtocolVersion × Bytes) :=
  decodePacket INCOMPATIBLE_PROTOCOL_VERSION incompatibleProtocolVersionDecodePayload buf

/-- Fields of `OpenConnectionReplyOne`, magic included. -/
structure OpenConnectionReplyOne where
  magic : Bytes
  server_id : Nat
  use_security : Bool
  mtu_size : Nat
deriving DecidableEq, Repr

/-- `OpenConnectionReplyOne.encode_payload`. -/
def openConnectionReplyOneEncodePayload (p : OpenConnectionReplyOne) : Bytes :=
  p.magic ++ writeLong p.server_id ++ writeBool p.use_security ++ writeShort p.mtu_size

/-- `OpenConnectionReplyOne.decode_payload`. -/
def openConnectionReplyOneDecodePayload (buf : Bytes) :
    Except PyErr (OpenConnectionReplyOne × Bytes) := do
  let (m, r1) ← readBytes 16 buf
  let (sid, r2) ← readLong r1
  let (us, r3) ← readBool r2
  let (mtu, r4) ← readShort r3
  Except.ok (⟨m, sid, us, mtu⟩, r4)

/-- Full `OpenConnectionReplyOne` encode, header included. -/
def openConnectionReplyOneEncode (p : OpenConnectionReplyOne) : Bytes :=
  encodePacket OPEN_CONNECTION_REPLY_ONE (openConnectionReplyOneEncodePayload p)

/-- Full `OpenConnectionReplyOne` decode, header included. -/
def openConnectionReplyOneDecode (buf : Bytes) : Except PyErr (OpenConnectionReplyOne × Bytes) :=
  decodePacket OPEN_CONNECTION_REPLY_ONE openConnectionReplyOneDecodePayload buf

/-- Fields of `OpenConnectionReplyTwo`, magic included. -/
structure OpenConnectionReplyTwo where
  magic : Bytes
  server_id : Nat
  client_address : InternetAddress
  mtu_size : Nat
  use_security : Bool
deriving DecidableEq, Repr

/-- `OpenConnectionReplyTwo.encode_payload`. -/
def openConnectionReplyTwoEncodePayload (p : OpenConnectionReplyTwo) : Bytes :=
  p.magic ++ writeLong p.server_id ++ write_address p.client_address ++
    writeShort p.mtu_size ++ writeBool p.use_security

/-- `OpenConnectionReplyTwo.decode_payload`. -/
def openConnectionReplyTwoDecodePayload (buf : Bytes) :
    Except PyErr (OpenConnectionReplyTwo × Bytes) := do
  let (m, r1) ← readBytes 16 buf
  let (sid, r2) ← readLong r1
  let (ca, r3) ← read_address r2
  let (mtu, r4) ← readShort r3
  let (us, r5) ← readBool r4
  Except.ok (⟨m, sid, ca, mtu, us⟩, r5)

/-- Full `OpenConnectionReplyTwo` encode, header included. -/
def openConnectionReplyTwoEncode (p : OpenConnectionReplyTwo) : Bytes :=
  encodePacket OPEN_CONNECTION_REPLY_TWO (openConnectionReplyTwoEncodePayload p)

/-- Full `OpenConnectionReplyTwo` decode, header included. -/
def openConnectionReplyTwoDecode (buf : Bytes) : Except PyErr (OpenConnectionReplyTwo × Bytes) :=
  decodePacket OPEN_CONNECTION_REPLY_TWO openConnectionReplyTwoDecodePayload buf

/-- Fields of `OpenConnectionRequestOne`, magic included. -/
structure OpenConnectionRequestOne where
  magic : Bytes
  protocol : Nat
  mtu_size : Nat
deriving DecidableEq, Repr

/-- `OpenConnectionRequestOne.encode_payload`: magic, one protocol byte, then
`mtu_size - 46` zero-padding bytes. -/
def openConnectionRequestOneEncodePayload (p : OpenConnectionRequestOne) : Bytes :=
  p.magic ++ writeByte p.protocol ++ List.replicate (p.mtu_size - 46) 0

/-- `OpenConnectionRequestOne.decode_payload`: magic, then the protocol read
as a 2-byte short (the source's `read_short`, although the encoder wrote a
single byte), then the rest of the buffer is consumed and `mtu_size` becomes
its length plus 46. -/
def openConnectionRequestOneDecodePayload (buf : Bytes) :
    Except PyErr (OpenConnectionRequestOne × Bytes) := do
  let (m, r1) ← readBytes 16 buf
  let (proto, r2) ← readShort r1
  Except.ok (⟨m, proto, r2.length + 46⟩, [])

/-- Full `OpenConnectionRequestOne` encode, header included. -/
def openConnectionRequestOneEncode (p : OpenConnectionRequestOne) : Bytes :=
  encodePacket OPEN_CONNECTION_REQUEST_ONE (openConnectionRequestOneEncodePayload p)

/-- Full `OpenConnectionRequestOne` decode, header included. -/
def openConnectionRequestOneDecode (buf : Bytes) :
    Except PyErr (OpenConnectionRequestOne × Bytes) :=
  decodePacket OPEN_CONNECTION_REQUEST_ONE openConnectionRequestOneDecodePayload buf

/-- Fields of `OpenConnectionRequestTwo`, magic included. -/
structure OpenConnectionRequestTwo where
  magic : Bytes
  client_id : Nat
  server_address : InternetAddress
  mtu_size : Nat
deriving DecidableEq, Repr

/-- `OpenConnectionRequestTwo.encode_payload`. -/
def openConnectionRequestTwoEncodePayload (p : OpenConnectionRequestTwo) : Bytes :=
  p.magic ++ write_address p.server_address ++ writeShort p.mtu_size ++ writeLong p.client_id

/-- `OpenConnectionRequestTwo.decode_payload`. -/
def openConnectionRequestTwoDecodePayload (buf : Bytes) :
    Except PyErr (OpenConnectionRequestTwo × Bytes) := do
  let (m, r1) ← readBytes 16 buf
  let (sa, r2) ← read_address r1
  let (mtu, r3) ← readShort r2
  let (cid, r4) ← readLong r3
  Except.ok (⟨m, cid, sa, mtu⟩, r4)

/-- Full `OpenConnectionRequestTwo` encode, header included. -/
def openConnectionRequestTwoEncode (p : OpenConnectionRequestTwo) : Bytes :=
  encodePacket OPEN_CONNECTION_REQUEST_TWO (openConnectionRequestTwoEncodePayload p)

/-- Full `OpenConnectionRequestTwo` decode, header included. -/
def openConnectionRequestTwoDecode (buf : Bytes) :
    Except PyErr (OpenConnectionRequestTwo × Bytes) :=
  decodePacket OPEN_CONNECTION_REQUEST_TWO openConnectionRequestTwoDecodePayload buf

/-- Fields of `UnconnectedPing`, magic included. -/
structure UnconnectedPing where
  magic : Bytes
  send_time : Nat
  client_id : Nat
deriving DecidableEq, Repr

/-- `UnconnectedPing.encode_payload`: 8-byte send time, magic, then the
client id written as a single byte (`write_byte`). -/
def unconnectedPingEncodePayload (p : UnconnectedPing) : Bytes :=
  writeLong p.send_time ++ p.magic ++ writeByte p.client_id

/-- `UnconnectedPing.decode_payload`: 8-byte send time, magic, then the
client id read as a 2-byte short (`read_short`) — one byte wider than the
encoder wrote. -/
def unconnectedPingDecodePayload (buf : Bytes) : Except PyErr (UnconnectedPing × Bytes) := do
  let (st, r1) ← readLong buf
  let (m, r2) ← readBytes 16 r1
  let (cid, r3) ← readShort r2
  Except.ok (⟨m, st, cid⟩, r3)

/-- Full `UnconnectedPing` encode, header included. -/
def unconnectedPingEncode (p : UnconnectedPing) : Bytes :=
  encodePacket UNCONNECTED_PING (unconnectedPingEncodePayload p)

/-- Full `UnconnectedPing` decode, header included. -/
def unconnectedPingDecode (buf : Bytes) : Except PyErr (UnconnectedPing × Bytes) :=
  decodePacket UNCONNECTED_PING unconnectedPingDecodePayload buf

/-- Fields of `UnconnectedPong`, magic included. -/
structure UnconnectedPong where
  magic : Bytes
  send_time : Nat
  server_id : Nat
  response : Bytes
deriving DecidableEq, Repr

/-- `UnconnectedPong.encode_payload`. -/
def unconnectedPongEncodePayload (p : UnconnectedPong) : Bytes :=
  writeLong p.send_time ++ writeLong p.server_id ++ p.magic ++ writeString p.response

/-- `UnconnectedPong.decode_payload`. -/
def unconnectedPongDecodePayload (buf : Bytes) : Except PyErr (UnconnectedPong × Bytes) := do
  let (st, r1) ← readLong buf
  let (sid, r2) ← readLong r1
  let (m, r3) ← readBytes 16 r2
  let (resp, r4) ← readString r3
  Except.ok (⟨m, st, sid, resp⟩, r4)

/-- Full `UnconnectedPong` encode, header included. -/
def unconnectedPongEncode (p : UnconnectedPong) : Bytes :=
  encodePacket UNCONNECTED_PONG (unconnectedPongEncodePayload p)

/-- Full `UnconnectedPong` decode, header included. -/
def unconnectedPongDecode (buf : Bytes) : Except PyErr (UnconnectedPong × Bytes) :=
  decodePacket UNCONNECTED_PONG unconnectedPongDecodePayload buf

/-- A valid offline-packet magic field: 16 bytes. -/
def ValidMagic (m : Bytes) : Prop := m.length = 16 ∧ ∀ x ∈ m, x < 256

/-- A valid ASCII string field: fits the 2-byte length prefix, ASCII codes. -/
def ValidAscii (s : Bytes) : Prop := s.length < 65536 ∧ ∀ c ∈ s, c < 128

instance (m : Bytes) : Decidable (ValidMagic m) := by unfold ValidMagic; infer_instance

instance (s : Bytes) : Decidable (ValidAscii s) := by unfold ValidAscii; infer_instance

/-- Valid fields for `AdvertiseSystem`. -/
def ValidAdvertiseSystem (p : AdvertiseSystem) : Prop := ValidAscii p.response

/-- Valid fields for `ConnectedPing`. -/
def ValidConnectedPing (p : ConnectedPing) : Prop := p.send_time < 2 ^ 64

/-- Valid fields for `ConnectedPong`. -/
def ValidConnectedPong (p : ConnectedPong) : Prop :=
  p.send_time < 2 ^ 64 ∧ p.receive_time < 2 ^ 64

/-- Valid fields for `ConnectionRequest`. -/
def ValidConnectionRequest (p : ConnectionRequest) : Prop :=
  p.client_id < 2 ^ 64 ∧ p.send_time < 2 ^ 64

/-- Valid fields for `IncompatibleProtocolVersion`. -/
def ValidIncompatibleProtocolVersion (p : IncompatibleProtocolVersion) : Prop :=
  ValidMagic p.magic ∧ p.protocol < 256 ∧ p.server_id < 2 ^ 64

/-- Valid fields for `OpenConnectionReplyOne`. -/
def ValidOpenConnectionReplyOne (p : OpenConnectionReplyOne) : Prop :=
  ValidMagic p.magic ∧ p.server_id < 2 ^ 64 ∧ p.mtu_size < 65536

/-- Valid fields for `OpenConnectionReplyTwo`. -/
def ValidOpenConnectionReplyTwo (p : OpenConnectionReplyTwo) : Prop :=
  ValidMagic p.magic ∧ p.server_id < 2 ^ 64 ∧ ValidAddress p.client_address ∧
    p.mtu_size < 65536

/-- Valid fields for `OpenConnectionRequestTwo`. -/
def ValidOpenConnectionRequestTwo (p : OpenConnectionRequestTwo) : Prop :=
  ValidMagic p.magic ∧ ValidAddress p.server_address ∧ p.mtu_size < 65536 ∧
    p.client_id < 2 ^ 64

/-- Valid fields for `UnconnectedPong`. -/
def ValidUnconnectedPong (p : UnconnectedPong) : Prop :=
  ValidMagic p.magic ∧ p.send_time < 2 ^ 64 ∧ p.server_id < 2 ^ 64 ∧ ValidAscii p.response

instance (p : AdvertiseSystem) : Decidable (ValidAdvertiseSystem p) := by
  unfold ValidAdvertiseSystem; infer_instance

instance (p : ConnectedPing) : Decidable (ValidConnectedPing p) := by
  unfold ValidConnectedPing; infer_instance

instance (p : ConnectedPong) : Decidable (ValidConnectedPong p) := by
  unfold ValidConnectedPong; infer_instance

instance (p : ConnectionRequest) : Decidable (ValidConnectionRequest p) := by
  unfold ValidConnectionRequest; infer_instance

instance (p : IncompatibleProtocolVersion) : Decidable (ValidIncompatibleProtocolVersion p) := by
  unfold ValidIncompatibleProtocolVersion; infer_instance

instance (p : OpenConnectionReplyOne) : Decidable (ValidOpenConnectionReplyOne p) := by
  unfold ValidOpenConnectionReplyOne; infer_instance

instance (p : OpenConnectionReplyTwo) : Decidable (ValidOpenConnectionReplyTwo p) := by
  unfold ValidOpenConnectionReplyTwo; infer_instance

instance (p : OpenConnectionRequestTwo) : Decidable (ValidOpenConnectionRequestTwo p) := by
  unfold ValidOpenConnectionRequestTwo; infer_instance

instance (p : UnconnectedPong) : Decidable (ValidUnconnectedPong p) := by
  unfold ValidUnconnectedPong; infer_instance

theorem advertiseSystemPayload_write (p : AdvertiseSystem) (r : Bytes)
    (h : ValidAdvertiseSystem p) :
    advertiseSystemDecodePayload (advertiseSystemEncodePayload p ++ r) = Except.ok (p, r) := by
  obtain ⟨s⟩ := p
  obtain ⟨hlen, -⟩ := h
  simp only [advertiseSystemEncodePayload, advertiseSystemDecodePayload]
  rw [readString_write s r hlen, exbind_ok]

theorem connectedPingPayload_write (p : ConnectedPing) (r : Bytes) (h : ValidConnectedPing p) :
    connectedPingDecodePayload (connectedPingEncodePayload p ++ r) = Except.ok (p, r) := by
  obtain ⟨st⟩ := p
  simp only [ValidConnectedPing] at h
  simp only [connectedPingEncodePayload, connectedPingDecodePayload]
  rw [readLong_write st r h, exbind_ok]

theorem connectedPongPayload_write (p : ConnectedPong) (r : Bytes) (h : ValidConnectedPong p) :
    connectedPongDecodePayload (connectedPongEncodePayload p ++ r) = Except.ok (p, r) := by
  obtain ⟨st, rt⟩ := p
  obtain ⟨h1, h2⟩ := h
  simp only at h1 h2
  simp only [connectedPongEncodePayload, connectedPongDecodePayload, List.append_assoc]
  rw [readLong_write st _ h1, exbind_ok]
  simp only
  rw [readLong_write rt r h2, exbind_ok]

theorem connectionRequestPayload_write (p : ConnectionRequest) (r : Bytes)
    (h : ValidConnectionRequest p) :
    connectionRequestDecodePayload (connectionRequestEncodePayload p ++ r) = Except.ok (p, r) := by
  obtain ⟨cid, st, us⟩ := p
  obtain ⟨h1, h2⟩ := h
  simp only at h1 h2
  simp only [connectionRequestEncodePayload, connectionRequestDecodePayload, List.append_assoc]
  rw [readLong_write cid _ h1, exbind_ok]
  simp only
  rw [readLong_write st _ h2, exbind_ok]
  simp only
  rw [readBool_write us r, exbind_ok]

theorem incompatibleProtocolVersionPayload_write (p : IncompatibleProtocolVersion) (r : Bytes)
    (h : ValidIncompatibleProtocolVersion p) :
    incompatibleProtocolVersionDecodePayload (incompatibleProtocolVersionEncodePayload p ++ r) =
      Except.ok (p, r) := by
  obtain ⟨m, proto, sid⟩ := p
  obtain ⟨hm, hp, hs⟩ := h
  simp only at hp hs
  simp only [incompatibleProtocolVersionEncodePayload, incompatibleProtocolVersionDecodePayload,
    List.append_assoc]
  rw [readByte_write proto _ hp, exbind_ok]
  simp only
  rw [readBytes_exact m _ 16 hm.1, exbind_ok]
  simp only
  rw [readLong_write sid r hs, exbind_ok]

theorem openConnectionReplyOnePayload_write (p : OpenConnectionReplyOne) (r : Bytes)
    (h : ValidOpenConnectionReplyOne p) :
    openConnectionReplyOneDecodePayload (openConnectionReplyOneEncodePayload p ++ r) =
      Except.ok (p, r) := by
  obtain ⟨m, sid, us, mtu⟩ := p
  obtain ⟨hm, hs, hmtu⟩ := h
  simp only at hs hmtu
  simp only [openConnectionReplyOneEncodePayload, openConnectionReplyOneDecodePayload,
    List.append_assoc]
  rw [readBytes_exact m _ 16 hm.1, exbind_ok]
  simp only
  rw [readLong_write sid _ hs, exbind_ok]
  simp only
  rw [readBool_write us _, exbind_ok]
  simp only
  rw [readShort_write mtu r hmtu, exbind_ok]

theorem openConnectionReplyTwoPayload_write (p : OpenConnectionReplyTwo) (r : Bytes)
    (h : ValidOpenConnectionReplyTwo p) :
    openConnectionReplyTwoDecodePayload (openConnectionReplyTwoEncodePayload p ++ r) =
      Except.ok (p, r) := by
  obtain ⟨m, sid, ca, mtu, us⟩ := p
  obtain ⟨hm, hs, hca, hmtu⟩ := h
  simp only at hs hca hmtu
  simp only [openConnectionReplyTwoEncodePayload, openConnectionReplyTwoDecodePayload,
    List.append_assoc]
  rw [readBytes_exact m _ 16 hm.1, exbind_ok]
  simp only
  rw [readLong_write sid _ hs, exbind_ok]
  simp only
  rw [read_address_write ca _ hca, exbind_ok]
  simp only
  rw [readShort_write mtu _ hmtu, exbind_ok]
  simp only
  rw [readBool_write us r, exbind_ok]

theorem openConnectionRequestTwoPayload_write (p : OpenConnectionRequestTwo) (r : Bytes)
    (h : ValidOpenConnectionRequestTwo p) :
    openConnectionRequestTwoDecodePayload (openConnectionRequestTwoEncodePayload p ++ r) =
      Except.ok (p, r) := by
  obtain ⟨m, cid, sa, mtu⟩ := p
  obtain ⟨hm, hsa, hmtu, hcid⟩ := h
  simp only at hsa hmtu hcid
  simp only [openConnectionRequestTwoEncodePayload, openConnectionRequestTwoDecodePayload,
    List.append_assoc]
  rw [readBytes_exact m _ 16 hm.1, exbind_ok]
  simp only
  rw [read_address_write sa _ hsa, exbind_ok]
  simp only
  rw [readShort_write mtu _ hmtu, exbind_ok]
  simp only
  rw [readLong_write cid r hcid, exbind_ok]

theorem unconnectedPongPayload_write (p : UnconnectedPong) (r : Bytes)
    (h : ValidUnconnectedPong p) :
    unconnectedPongDecodePayload (unconnectedPongEncodePayload p ++ r) = Except.ok (p, r) := by
  obtain ⟨m, st, sid, resp⟩ := p
  obtain ⟨hm, hst, hsid, hresp⟩ := h
  simp only at hst hsid hresp
  simp only [unconnectedPongEncodePayload, unconnectedPongDecodePayload, List.append_assoc]
  rw [readLong_write st _ hst, exbind_ok]
  simp only
  rw [readLong_write sid _ hsid, exbind_ok]
  simp only
  rw [readBytes_exact m _ 16 hm.1, exbind_ok]
  simp only
  rw [readString_write resp r hresp.1, exbind_ok]

/-- C1 (counterexample): `UnconnectedPing` does not round-trip.  For the
concrete valid packet with `send_time = 0` and `client_id = 0`, the encoder
writes the client id as one byte but the decoder reads it as a 2-byte short,
so decoding the encoded bytes runs past the end of the buffer and fails with
`BufferUnderrun` instead of returning the packet. -/
theorem unconnectedPing_roundtrip_fails :
    unconnectedPingDecode (unconnectedPingEncode ⟨MAGIC, 0, 0⟩) ≠
        Except.ok (⟨MAGIC, 0, 0⟩, []) ∧
      unconnectedPingDecode (unconnectedPingEncode ⟨MAGIC, 0, 0⟩) =
        Except.error PyErr.bufferUnderrun := by
  constructor
  · decide
  · decide

/-- C1 (amended): `decode(encode(packet)) == packet` holds for every concrete
message type whose encode and decode consume the same field layout —
AdvertiseSystem, ConnectedPing, ConnectedPong, ConnectionRequest,
DisconnectNotification, IncompatibleProtocolVersion, OpenConnectionReplyOne,
OpenConnectionReplyTwo, OpenConnectionRequestTwo and UnconnectedPong — for
every packet whose fields are valid for that type. -/
theorem roundtrip_symmetric_catalog :
    (∀ p : AdvertiseSystem, ValidAdvertiseSystem p →
        advertiseSystemDecode (advertiseSystemEncode p) = Except.ok (p, [])) ∧
    (∀ p : ConnectedPing, ValidConnectedPing p →
        connectedPingDecode (connectedPingEncode p) = Except.ok (p, [])) ∧
    (∀ p : ConnectedPong, ValidConnectedPong p →
        connectedPongDecode (connectedPongEncode p) = Except.ok (p, [])) ∧
    (∀ p : ConnectionRequest, ValidConnectionRequest p →
        connectionRequestDecode (connectionRequestEncode p) = Except.ok (p, [])) ∧
    (∀ p : DisconnectNotification,
        disconnectNotificationDecode (disconnectNotificationEncode p) = Except.ok (p, [])) ∧
    (∀ p : IncompatibleProtocolVersion, ValidIncompatibleProtocolVersion p →
        incompatibleProtocolVersionDecode (incompatibleProtocolVersionEncode p) =
          Except.ok (p, [])) ∧
    (∀ p : OpenConnectionReplyOne, ValidOpenConnectionReplyOne p →
        openConnectionReplyOneDecode (openConnectionReplyOneEncode p) = Except.ok (p, [])) ∧
    (∀ p : OpenConnectionReplyTwo, ValidOpenConnectionReplyTwo p →
        openConnectionReplyTwoDecode (openConnectionReplyTwoEncode p) = Except.ok (p, [])) ∧
    (∀ p : OpenConnectionRequestTwo, ValidOpenConnectionRequestTwo p →
        openConnectionRequestTwoDecode (openConnectionRequestTwoEncode p) = Except.ok (p, [])) ∧
    (∀ p : UnconnectedPong, ValidUnconnectedPong p →
        unconnectedPongDecode (unconnectedPongEncode p) = Except.ok (p, [])) := by
  refine ⟨?_, ?_, ?_, ?_, ?_, ?_, ?_, ?_, ?_, ?_⟩
  · intro p h
    rw [advertiseSystemDecode, advertiseSystemEncode,
      decodePacket_encodePacket _ _ _ (by decide)]
    simpa using advertiseSystemPayload_write p [] h
  · intro p h
    rw [connectedPingDecode, connectedPingEncode,
      decodePacket_encodePacket _ _ _ (by decide)]
    simpa using connectedPingPayload_write p [] h
  · intro p h
    rw [connectedPongDecode, connectedPongEncode,
      decodePacket_encodePacket _ _ _ (by decide)]
    simpa using connectedPongPayload_write p [] h
  · intro p h
    rw [connectionRequestDecode, connectionRequestEncode,
      decodePacket_encodePacket _ _ _ (by decide)]
    simpa using connectionRequestPayload_write p [] h
  · intro p
    rw [disconnectNotificationDecode, disconnectNotificationEncode,
      decodePacket_encodePacket _ _ _ (by decide)]
    rfl
  · intro p h
    rw [incompatibleProtocolVersionDecode, incompatibleProtocolVersionEncode,
      decodePacket_encodePacket _ _ _ (by decide)]
    simpa using incompatibleProtocolVersionPayload_write p [] h
  · intro p h
    rw [openConnectionReplyOneDecode, openConnectionReplyOneEncode,
      decodePacket_encodePacket _ _ _ (by decide)]
    simpa using openConnectionReplyOnePayload_write p [] h
  · intro p h
    rw [openConnectionReplyTwoDecode, openConnectionReplyTwoEncode,
      decodePacket_encodePacket _ _ _ (by decide)]
    simpa using openConnectionReplyTwoPayload_write p [] h
  · intro p h
    rw [openConnectionRequestTwoDecode, openConnectionRequestTwoEncode,
      decodePacket_encodePacket _ _ _ (by decide)]
    simpa using openConnectionRequestTwoPayload_write p [] h
  · intro p h
    rw [unconnectedPongDecode, unconnectedPongEncode,
      decodePacket_encodePacket _ _ _ (by decide)]
    simpa using unconnectedPongPayload_write p [] h

/-- Witness for C1 (amended): one concrete valid packet of each symmetric
type round-trips. -/
theorem roundtrip_symmetric_catalog_witness :
    advertiseSystemDecode (advertiseSystemEncode ⟨[77, 67, 80, 69]⟩) =
        Except.ok (⟨[77, 67, 80, 69]⟩, []) ∧
    connectedPingDecode (connectedPingEncode ⟨12345⟩) = Except.ok (⟨12345⟩, []) ∧
    connectedPongDecode (connectedPongEncode ⟨12345, 67890⟩) = Except.ok (⟨12345, 67890⟩, []) ∧
    connectionRequestDecode (connectionRequestEncode ⟨5, 7, true⟩) =
        Except.ok (⟨5, 7, true⟩, []) ∧
    disconnectNotificationDecode (disconnectNotificationEncode ⟨⟩) = Except.ok (⟨⟩, []) ∧
    incompatibleProtocolVersionDecode (incompatibleProtocolVersionEncode ⟨MAGIC, 6, 99⟩) =
        Except.ok (⟨MAGIC, 6, 99⟩, []) ∧
    openConnectionReplyOneDecode (openConnectionReplyOneEncode ⟨MAGIC, 99, false, 1492⟩) =
        Except.ok (⟨MAGIC, 99, false, 1492⟩, []) ∧
    openConnectionReplyTwoDecode
        (openConnectionReplyTwoEncode ⟨MAGIC, 99, ⟨[127, 0, 0, 1], 19132, 4⟩, 1492, false⟩) =
        Except.ok (⟨MAGIC, 99, ⟨[127, 0, 0, 1], 19132, 4⟩, 1492, false⟩, []) ∧
    openConnectionRequestTwoDecode
        (openConnectionRequestTwoEncode ⟨MAGIC, 55, ⟨[127, 0, 0, 1], 19132, 4⟩, 1492⟩) =
        Except.ok (⟨MAGIC, 55, ⟨[127, 0, 0, 1], 19132, 4⟩, 1492⟩, []) ∧
    unconnectedPongDecode (unconnectedPongEncode ⟨MAGIC, 1, 2, [77, 67]⟩) =
        Except.ok (⟨MAGIC, 1, 2, [77, 67]⟩, []) :=
  ⟨roundtrip_symmetric_catalog.1 _ (by decide),
   roundtrip_symmetric_catalog.2.1 _ (by decide),
   roundtrip_symmetric_catalog.2.2.1 _ (by decide),
   roundtrip_symmetric_catalog.2.2.2.1 _ (by decide),
   roundtrip_symmetric_catalog.2.2.2.2.1 _,
   roundtrip_symmetric_catalog.2.2.2.2.2.1 _ (by decide),
   roundtrip_symmetric_catalog.2.2.2.2.2.2.1 _ (by decide),
   roundtrip_symmetric_catalog.2.2.2.2.2.2.2.1 _ (by decide),
   roundtrip_symmetric_catalog.2.2.2.2.2.2.2.2.1 _ (by decide),
   roundtrip_symmetric_catalog.2.2.2.2.2.2.2.2.2 _ (by decide)⟩

set_option maxRecDepth 100000 in
/-- C2: encoding `OpenConnectionRequestOne` with `mtu_size = 1492` writes the
16-byte magic, one protocol byte and 1446 zero-padding bytes, but decoding
the result does NOT recover `mtu_size = 1492`: the decoder reads the protocol
field with `read_short`, consuming one padding byte too many, so it infers
`mtu_size = 1491` (and a garbled protocol of 1536 = 6 · 256). -/
theorem openConnectionRequestOne_mtu_1492 :
    openConnectionRequestOneEncode ⟨MAGIC, DEFAULT_PROTOCOL_VERSION, 1492⟩ =
        writeByte OPEN_CONNECTION_REQUEST_ONE ++
          (MAGIC ++ writeByte DEFAULT_PROTOCOL_VERSION ++ List.replicate (1492 - 46) 0) ∧
      openConnectionRequestOneDecode
          (openConnectionRequestOneEncode ⟨MAGIC, DEFAULT_PROTOCOL_VERSION, 1492⟩) =
        Except.ok (⟨MAGIC, 1536, 1491⟩, []) ∧
      (1491 : Nat) ≠ 1492 := by
  refine ⟨rfl, ?_, by decide⟩
  rfl

/-- C7 (counterexample): decoding the one-byte buffer `[1]` as a
`ConnectedPing` (expected ID 0) does not fail with `UnexpectedPacketId`:
the error-message formatting in `decode_header` reads a second byte from the
exhausted stream, so the failure surfacing is `BufferUnderrun`. -/
theorem decode_wrong_id_one_byte :
    connectedPingDecode [1] = Except.error PyErr.bufferUnderrun ∧
      PyErr.bufferUnderrun ≠ PyErr.unexpectedPacketId := by
  constructor
  · decide
  · decide

/-- Record tag `AcknowledgePacket.RECORD_TYPE_RANGE`. -/
def RECORD_TYPE_RANGE : Nat := 0x00

/-- Record tag `AcknowledgePacket.RECORD_TYPE_SINGLE`. -/
def RECORD_TYPE_SINGLE : Nat := 0x01

/-- Insert a value into an ascending-sorted list, keeping it sorted. -/
def insertAsc (x : Nat) : List Nat → List Nat
  | [] => [x]
  | y :: ys => if x ≤ y then x :: y :: ys else y :: insertAsc x ys

/-- Ascending sort, modelling Python's in-place `list.sort()` at the start of
`AcknowledgePacket.encode_payload`. -/
def pySort (l : List Nat) : List Nat := l.foldr insertAsc []

/-- Flush one run `[start, last]` as record bytes: a SINGLE record (tag 0x01,
one little-endian triad) when the run has one element, otherwise a RANGE
record (tag 0x00, two little-endian triads). -/
def ackFlush (start last : Nat) : Bytes :=
  if start = last then RECORD_TYPE_SINGLE :: writeTriadLE start
  else RECORD_TYPE_RANGE :: (writeTriadLE start ++ writeTriadLE last)

/-- The run-walking loop of `AcknowledgePacket.encode_payload` over the
sorted tail: extend the current run `[start, last]` while the next value is
`last + 1`, flush it and start a new run at a gap, and skip duplicates
(`diff == 0` matches neither branch of the source's if/elif).  Returns the
concatenated record bytes and the number of flushed records. -/
def ackEncodeLoop : List Nat → Nat → Nat → Bytes × Nat
  | [], start, last => (ackFlush start last, 1)
  | c :: rest, start, last =>
      if c = last + 1 then ackEncodeLoop rest start c
      else if last + 1 < c then
        let (bs, recs) := ackEncodeLoop rest c c
        (ackFlush start last ++ bs, recs + 1)
      else ackEncodeLoop rest start last

/-- `AcknowledgePacket.encode_payload`: sort the sequence numbers, compress
them into records, and write a 2-byte record count followed by the record
bytes; an empty set writes count 0 and nothing else. -/
def ackEncodePayload (packets : List Nat) : Bytes :=
  match pySort packets with
  | [] => writeShort 0
  | s :: rest =>
      let (bs, recs) := ackEncodeLoop rest s s
      writeShort recs ++ bs

/-- C3: the ACK encoder writes a 2-byte record count equal to the number of
flushed run records, then the record bytes: the contiguous input [5,6,7,8]
yields one RANGE record (tag 0x00, little-endian triads 5 and 8); the
non-contiguous input [5,7,9] yields three SINGLE records (tag 0x01, one triad
each); the empty input yields record count 0 and no record bytes. -/
theorem ackEncodePayload_examples :
    ackEncodePayload [5, 6, 7, 8] =
        writeShort 1 ++ (RECORD_TYPE_RANGE :: (writeTriadLE 5 ++ writeTriadLE 8)) ∧
      ackEncodePayload [5, 7, 9] =
        writeShort 3 ++ ((RECORD_TYPE_SINGLE :: writeTriadLE 5) ++
          (RECORD_TYPE_SINGLE :: writeTriadLE 7) ++ (RECORD_TYPE_SINGLE :: writeTriadLE 9)) ∧
      ackEncodePayload [] = writeShort 0 ++ [] := by
  refine ⟨by decide, by decide, by decide⟩

/-- Python list index assignment `l[i] = v`: succeeds only when `i` is an
existing index, otherwise raises `IndexError`. -/
def listSet (l : List Nat) (i v : Nat) : Except PyErr (List Nat) :=
  if i < l.length then Except.ok (l.set i v) else Except.error PyErr.indexOutOfRange

/-- The inner expansion loop `for j in range(start, end + 1)` of
`AcknowledgePacket.decode_payload`: assign `len` consecutive values starting
at `start` into `packets` at indices `count, count + 1, ...`. -/
def ackFill (ps : List Nat) (count start : Nat) : Nat → Except PyErr (List Nat × Nat)
  | 0 => Except.ok (ps, count)
  | n + 1 =>
      match listSet ps count start with
      | Except.error e => Except.error e
      | Except.ok ps2 => ackFill ps2 (count + 1) (start + 1) n

/-- The record loop of `AcknowledgePacket.decode_payload`.  `fuel` is the
number of records still allowed by the declared record count; each iteration
first checks end-of-stream and the 4096 hard cap.  A record whose tag is
SINGLE (0x01) reads two little-endian triads `start` and `end`, caps the span
via `end = start + 512` when `end - start > 512`, and stores the whole
inclusive span; any other tag reads one triad and stores it. -/
def ackDecodeLoop : Nat → Bytes → List Nat → Nat → Except PyErr (List Nat × Bytes)
  | 0, buf, ps, _ => Except.ok (ps, buf)
  | fuel + 1, buf, ps, count =>
      if buf = [] ∨ 4096 ≤ count then Except.ok (ps, buf)
      else
        match readByte buf with
        | Except.error e => Except.error e
        | Except.ok (tag, r1) =>
          if tag = RECORD_TYPE_SINGLE then
            match readTriadLE r1 with
            | Except.error e => Except.error e
            | Except.ok (start, r2) =>
              match readTriadLE r2 with
              | Except.error e => Except.error e
              | Except.ok (e, r3) =>
                match ackFill ps count start
                    ((if 512 < e - start then start + 512 else e) + 1 - start) with
                | Except.error err => Except.error err
                | Except.ok (ps2, count2) => ackDecodeLoop fuel r3 ps2 count2
          else
            match readTriadLE r1 with
            | Except.error e => Except.error e
            | Except.ok (v, r2) =>
              match listSet ps count v with
              | Except.error err => Except.error err
              | Except.ok ps2 => ackDecodeLoop fuel r2 ps2 (count + 1)

/-- `AcknowledgePacket.decode_payload`: clear the packet list, read the
2-byte record count, then run the record loop starting from the now-empty
list with zero extracted values. -/
def ackDecodePayload (buf : Bytes) : Except PyErr (List Nat × Bytes) :=
  match readShort buf with
  | Except.error e => Except.error e
  | Except.ok (records, r1) => ackDecodeLoop records r1 [] 0

theorem listSet_length (l : List Nat) (i v : Nat) (l2 : List Nat)
    (h : listSet l i v = Except.ok l2) : l2.length = l.length := by
  unfold listSet at h
  split at h
  · injection h with h2
    rw [← h2, List.length_set]
  · cases h

theorem ackFill_length (n : Nat) (ps : List Nat) (count start : Nat) (ps2 : List Nat)
    (count2 : Nat) (h : ackFill ps count start n = Except.ok (ps2, count2)) :
    ps2.length = ps.length := by
  induction n generalizing ps count start with
  | zero =>
    unfold ackFill at h
    injection h with h2
    simp only [Prod.mk.injEq] at h2
    rw [h2.1]
  | succ n ih =>
    unfold ackFill at h
    split at h
    · cases h
    · rename_i psm hls
      rw [ih _ _ _ h, listSet_length _ _ _ _ hls]

theorem ackDecodeLoop_length (fuel : Nat) (buf : Bytes) (ps : List Nat) (count : Nat)
    (ps2 : List Nat) (rest : Bytes)
    (h : ackDecodeLoop fuel buf ps count = Except.ok (ps2, rest)) :
    ps2.length = ps.length := by
  induction fuel generalizing buf ps count with
  | zero =>
    unfold ackDecodeLoop at h
    injection h with h2
    simp only [Prod.mk.injEq] at h2
    rw [h2.1]
  | succ fuel ih =>
    unfold ackDecodeLoop at h
    split at h
    · injection h with h2
      simp only [Prod.mk.injEq] at h2
      rw [h2.1]
    · split at h
      · cases h
      · rename_i tagr1 heq
        split at h
        · split at h
          · cases h
          · rename_i startr2 heq2
            split at h
            · cases h
            · rename_i er3 heq3
              split at h
              · cases h
              · rename_i psc heq4
                rw [ih _ _ _ h, ackFill_length _ _ _ _ _ _ heq4]
        · split at h
          · cases h
          · rename_i vr2 heq2
            split at h
            · cases h
            · rename_i psm heq3
              rw [ih _ _ _ h, listSet_length _ _ _ _ heq3]

/-- C4: evaluation of `decode_payload` at a crafted SINGLE (0x01) record
claiming the range [0, 1000000].  The record's two little-endian triads are
read and the span is capped to 513 entries, but storing the first sequence
number executes `self.packets[count] = j` against the freshly cleared (empty)
list, so the decode fails with `IndexError` instead of returning the capped
span.  The second conjunct shows the tag-0x01 record indeed consumes a second
triad: with only one triad present the decode underruns. -/
theorem ackDecode_crafted_range_errors :
    ackDecodePayload (writeShort 1 ++ (RECORD_TYPE_SINGLE ::
        (writeTriadLE 0 ++ writeTriadLE 1000000))) = Except.error PyErr.indexOutOfRange ∧
      ackDecodePayload (writeShort 1 ++ (RECORD_TYPE_SINGLE :: writeTriadLE 0)) =
        Except.error PyErr.bufferUnderrun := by
  constructor
  · decide
  · decide

/-- C5: for every input buffer, a successful `AcknowledgePacket.decode_payload`
never returns more than 4096 sequence numbers.  The record loop stops at the
declared record count, at end of stream, or at the 4096 hard cap; moreover
every store goes through index assignment into the cleared list, which keeps
the list length at zero, so the bound holds for every successful decode. -/
theorem ackDecodePayload_total_cap (buf : Bytes) (ps : List Nat) (rest : Bytes)
    (h : ackDecodePayload buf = Except.ok (ps, rest)) : ps.length ≤ 4096 := by
  unfold ackDecodePayload at h
  split at h
  · cases h
  · rw [ackDecodeLoop_length _ _ _ _ _ _ h]
    simp

/-- Witness for C5: the buffer declaring zero records decodes successfully
and the bound holds there. -/
theorem ackDecodePayload_total_cap_witness :
    ackDecodePayload [0, 0] = Except.ok ([], []) ∧ ([] : List Nat).length ≤ 4096 :=
  ⟨by decide, ackDecodePayload_total_cap [0, 0] [] [] (by decide)⟩

/-- C6 (counterexample): a buffer with declared record count 1 containing one
complete SINGLE (0x01) record — triads `start = 1`, `end = 0`, an empty span —
decodes successfully to the empty collection rather than failing with an
index-out-of-range error, refuting the claim that every buffer with a
declared count of at least 1 and at least one record fails. -/
theorem ackDecode_empty_span_succeeds :
    ackDecodePayload (writeShort 1 ++ (RECORD_TYPE_SINGLE ::
        (writeTriadLE 1 ++ writeTriadLE 0))) = Except.ok ([], []) ∧
      ackDecodePayload (writeShort 1 ++ (RECORD_TYPE_SINGLE ::
        (writeTriadLE 1 ++ writeTriadLE 0))) ≠ Except.error PyErr.indexOutOfRange := by
  constructor
  · decide
  · decide

/-- C6 (amended): `decode_payload` assigns each produced sequence number by
index into the freshly cleared list, so it fails with an index-out-of-range
error as soon as any sequence number is produced — any successful decode
returns the empty collection (records producing no numbers, such as a SINGLE
record with an empty span, do not trigger the failure).  The second conjunct
shows a buffer with one number-producing record failing. -/
theorem ackDecodePayload_success_is_empty :
    (∀ (buf : Bytes) (ps : List Nat) (rest : Bytes),
        ackDecodePayload buf = Except.ok (ps, rest) → ps = []) ∧
      ackDecodePayload (writeShort 1 ++ (RECORD_TYPE_RANGE :: writeTriadLE 5)) =
        Except.error PyErr.indexOutOfRange := by
  constructor
  · intro buf ps rest h
    unfold ackDecodePayload at h
    split at h
    · cases h
    · have := ackDecodeLoop_length _ _ _ _ _ _ h
      simpa [List.length_eq_zero] using this
  · decide

/-- Witness for C6 (amended): applying the amended statement to the
empty-span buffer, whose successful decode is indeed empty. -/
theorem ackDecodePayload_success_is_empty_witness :
    ackDecodePayload (writeShort 1 ++ (RECORD_TYPE_SINGLE ::
        (writeTriadLE 1 ++ writeTriadLE 0))) = Except.ok ([], []) ∧ ([] : List Nat) = [] :=
  ⟨by decide,
   ackDecodePayload_success_is_empty.1
     (writeShort 1 ++ (RECORD_TYPE_SINGLE :: (writeTriadLE 1 ++ writeTriadLE 0))) [] []
     (by decide)⟩

/-- Wire ID of the `ACK` class (`ACK.ID = 0xc0`). -/
def ACK_ID : Nat := 0xc0

/-- Wire ID of the `NACK` class (`NACK.ID = 0xa0`). -/
def NACK_ID : Nat := 0xa0

/-- Values storable as Python class or instance attributes in this model. -/
inductive PyVal where
  | int (n : Int)
  | bytes (b : Bytes)
  | addr (a : InternetAddress)
  | addrList (l : List InternetAddress)
deriving DecidableEq, Repr

/-- Class-body assignments of `Packet`: `ID: int = -1`. -/
def packetClassAttrs : List (String × PyVal) := [("ID", PyVal.int (-1))]

/-- Class-body assignments of `OfflinePacket`: the magic constant. -/
def offlinePacketClassAttrs : List (String × PyVal) := [("magic", PyVal.bytes MAGIC)]

/-- Class-body assignments of `OnlinePacket`: none. -/
def onlinePacketClassAttrs : List (String × PyVal) := []

/-- Class-body assignments of `UnconnectedPing`:
`ID = MessageIdentifiers.UNCONNECTED_PING` (0x01); the field declarations
`send_time: int` and `client_id: int` are bare annotations and assign
nothing. -/
def unconnectedPingClassAttrs : List (String × PyVal) := [("ID", PyVal.int 1)]

/-- Class-body assignments of `UnconnectedPingOpenConnections`: none.  Line
313 of protocol.py reads `ID: MessageIdentifiers.UNCONNECTED_PING_OPEN_CONNECTIONS`,
a bare type annotation rather than an assignment, so the class body binds no
`ID` of its own. -/
def unconnectedPingOpenConnectionsClassAttrs : List (String × PyVal) := []

/-- Class-body assignments of `ConnectionRequestAccepted`:
`ID = MessageIdentifiers.CONNECTION_REQUEST_ACCEPTED` (0x10); the four field
declarations are bare annotations and assign nothing. -/
def connectionRequestAcceptedClassAttrs : List (String × PyVal) := [("ID", PyVal.int 16)]

/-- Attribute lookup along a method-resolution order: the first class that
assigned the name wins. -/
def lookupAttr : List (List (String × PyVal)) → String → Option PyVal
  | [], _ => none
  | c :: rest, name =>
      match c.lookup name with
      | some v => some v
      | none => lookupAttr rest name

/-- Method-resolution order of `UnconnectedPingOpenConnections`:
itself, `UnconnectedPing`, `OfflinePacket`, `Packet`. -/
def unconnectedPingOpenConnectionsMRO : List (List (String × PyVal)) :=
  [unconnectedPingOpenConnectionsClassAttrs, unconnectedPingClassAttrs,
   offlinePacketClassAttrs, packetClassAttrs]

/-- Method-resolution order of `ConnectionRequestAccepted`:
itself, `OnlinePacket`, `Packet`. -/
def connectionRequestAcceptedMRO : List (List (String × PyVal)) :=
  [connectionRequestAcceptedClassAttrs, onlinePacketClassAttrs, packetClassAttrs]

/-- Python attribute read `self.name`: the instance dictionary first, then
the class chain, and `AttributeError` when neither binds the name. -/
def getattrOrErr (instDict : List (String × PyVal)) (mro : List (List (String × PyVal)))
    (name : String) : Except PyErr PyVal :=
  match instDict.lookup name with
  | some v => Except.ok v
  | none =>
      match lookupAttr mro name with
      | some v => Except.ok v
      | none => Except.error PyErr.attributeError

/-- C9: the `UnconnectedPingOpenConnections` class resolves its `ID`
attribute by inheritance to 0x01 (`UNCONNECTED_PING`), not to the contracted
`UNCONNECTED_PING_OPEN_CONNECTIONS` value 0x02, because line 313 annotates
`ID` instead of assigning it; `ACK` and `NACK` do carry 0xC0 and 0xA0. -/
theorem unconnectedPingOpenConnections_wire_id :
    ACK_ID = 0xc0 ∧ NACK_ID = 0xa0 ∧
      UNCONNECTED_PING_OPEN_CONNECTIONS = 0x02 ∧ UNCONNECTED_PING = 0x01 ∧
      lookupAttr unconnectedPingOpenConnectionsMRO "ID" = some (PyVal.int 1) ∧
      lookupAttr unconnectedPingOpenConnectionsMRO "ID" ≠ some (PyVal.int 2) := by
  refine ⟨rfl, rfl, rfl, rfl, rfl, ?_⟩
  decide

/-- `ConnectionRequestAccepted.__init__`: executes
`self.system_address.append(InternetAddress('127.0.0.1', 0, 4))`, which first
reads the attribute `system_address` on the fresh instance.  The instance
dictionary is empty and no class in the chain ever assigns that name (it is
only annotated), so the read raises `AttributeError`.  On success the result
would be the instance dictionary after initialization (the append mutates the
fetched list and creates no instance attribute). -/
def connectionRequestAccepted_init : Except PyErr (List (String × PyVal)) :=
  match getattrOrErr [] connectionRequestAcceptedMRO "system_address" with
  | Except.error e => Except.error e
  | Except.ok _ => Except.ok []

/-- `ConnectionRequestAccepted.create`: calls `cls()` — which runs
`__init__` — and then assigns the four keyword fields on the result. -/
def connectionRequestAccepted_create (address : InternetAddress)
    (system_address : List InternetAddress) (send_time receive_time : Nat) :
    Except PyErr (List (String × PyVal)) :=
  match connectionRequestAccepted_init with
  | Except.error e => Except.error e
  | Except.ok d =>
      Except.ok (d ++ [("address", PyVal.addr address),
        ("system_address", PyVal.addrList system_address),
        ("send_time", PyVal.int send_time), ("receive_time", PyVal.int receive_time)])

/-- C10: every attempt to construct a `ConnectionRequestAccepted` — directly
through `__init__` or via the `create` factory with any field values — fails
with `AttributeError`, because `__init__` appends to `system_address`, which
is only a bare class-level annotation and is never assigned before the read. -/
theorem connectionRequestAccepted_never_constructs :
    connectionRequestAccepted_init = Except.error PyErr.attributeError ∧
      ∀ (address : InternetAddress) (system_address : List InternetAddress)
        (send_time receive_time : Nat),
        connectionRequestAccepted_create address system_address send_time receive_time =
          Except.error PyErr.attributeError := by
  constructor
  · rfl
  · intro a s st rt
    rfl
